import Mathlib

/-!
# Verification of the crop-disease-diagnosis inference pipeline

Shallow embedding of the client-side inference pipeline of the
Crop-Disease-Diagnose web application, together with proofs about it.

The embedding translates, definition by definition, the TypeScript sources:

* `src/lib/ml-model.ts` — disease-class table, disease-content table and
  `getDiseaseInfo`;
* `src/lib/api.ts` — the four-tier inference orchestrator inside
  `analyzePlantImage`, diagnosis assembly, `saveDiagnosisToDatabase` and
  `getDiagnosisHistory`;
* the worker-channel module (the `supabase.ts` document containing
  `initWorker`, `sendWorkerMessage`, `processFallback` and
  `processImageInWorker`) — modelled twice, at two granularities: a
  correlation-map transition system for the pending-promise bookkeeping, and
  a control-flow function for the init/fallback logic in which each awaited
  asynchronous outcome is an explicit parameter;
* `src/lib/worker-client.ts` (image-worker document) — `segmentImage`;
* `src/lib/model-worker.ts` (image-processor document) — `checkImageContent`.

JavaScript numbers that the code keeps integral are modelled as `Int`/`Nat`;
`Math.random()` draws are explicit rational parameters `u` with
`0 ≤ u < 1`; promise rejection is `Except`; the once-only settlement
semantics of JS promises is made explicit in the transition system.
-/

namespace CropDiagnosis

/-- One treatment option of the disease-content table (`ml-model.ts`). -/
structure TreatmentOption where
  name : String
  description : String
  effectiveness : Int
  applicationMethod : String
deriving Repr, DecidableEq

/-- One product recommendation of the disease-content table (`ml-model.ts`). -/
structure ProductRecommendation where
  name : String
  type : String
  description : String
  imageUrl : Option String
deriving Repr, DecidableEq

/-- An entry of `DISEASE_CLASSES` in `ml-model.ts`. -/
structure DiseaseClass where
  id : String
  name : String
  plantType : String
deriving Repr, DecidableEq

/-- An entry of `DISEASE_INFO` in `ml-model.ts` (the detailed content). -/
structure DiseaseInfoBase where
  description : String
  symptoms : List String
  treatmentOptions : List TreatmentOption
  productRecommendations : List ProductRecommendation
deriving Repr, DecidableEq

/-- The record returned by `getDiseaseInfo` in `ml-model.ts`. -/
structure DiseaseInfo where
  name : String
  plantType : String
  description : String
  symptoms : List String
  treatmentOptions : List TreatmentOption
  productRecommendations : List ProductRecommendation
deriving Repr, DecidableEq

/-- `DISEASE_CLASSES` of `ml-model.ts` (ten classes). -/
def DISEASE_CLASSES : List DiseaseClass :=
  [ ⟨"healthy", "Healthy", "General"⟩
  , ⟨"late_blight", "Late Blight", "Tomato"⟩
  , ⟨"early_blight", "Early Blight", "Tomato"⟩
  , ⟨"bacterial_spot", "Bacterial Spot", "Tomato"⟩
  , ⟨"black_rot", "Black Rot", "Grape"⟩
  , ⟨"powdery_mildew", "Powdery Mildew", "Cucumber"⟩
  , ⟨"downy_mildew", "Downy Mildew", "Cucumber"⟩
  , ⟨"cercospora_leaf_spot", "Cercospora Leaf Spot", "Strawberry"⟩
  , ⟨"common_rust", "Common Rust", "Corn"⟩
  , ⟨"northern_leaf_blight", "Northern Leaf Blight", "Corn"⟩ ]

/-- The `late_blight` entry of `DISEASE_INFO` in `ml-model.ts`. -/
def lateBlightInfo : DiseaseInfoBase where
  description := "Late blight is a destructive disease affecting tomatoes and potatoes. It spreads rapidly in cool, wet conditions and can destroy crops within days if not treated."
  symptoms := ["Dark brown spots on leaves", "White fuzzy growth on undersides", "Rotting fruit", "Rapid plant collapse"]
  treatmentOptions :=
    [ ⟨"Fungicide Application", "Apply copper-based fungicide to affected areas and surrounding plants.", 85, "Spray evenly on leaf surfaces, focusing on both top and bottom sides."⟩
    , ⟨"Plant Removal", "Remove and destroy infected plants to prevent spread to healthy plants.", 90, "Carefully remove entire plants, seal in plastic bags, and dispose of properly."⟩
    , ⟨"Cultural Control", "Improve air circulation and avoid overhead watering to reduce humidity.", 70, "Space plants properly and water at soil level in the morning."⟩ ]
  productRecommendations :=
    [ ⟨"Copper Fungicide", "Organic Fungicide", "Broad-spectrum fungicide that prevents infection of healthy tissue.", some "https://images.unsplash.com/photo-1622557850710-0c33f1c9a9a5?w=400&q=80"⟩
    , ⟨"Chlorothalonil", "Chemical Fungicide", "Protective fungicide that prevents spore germination.", some "https://images.unsplash.com/photo-1620662736427-b8a198f52a4d?w=400&q=80"⟩ ]

/-- The `early_blight` entry of `DISEASE_INFO` in `ml-model.ts`. -/
def earlyBlightInfo : DiseaseInfoBase where
  description := "Early blight is a common fungal disease that affects tomato and potato plants, causing leaf spots, stem cankers, and fruit rot."
  symptoms := ["Dark brown spots with concentric rings", "Yellowing around lesions", "Lower leaves affected first", "Stem lesions"]
  treatmentOptions :=
    [ ⟨"Fungicide Treatment", "Apply fungicide containing chlorothalonil or copper as soon as symptoms appear.", 80, "Spray all plant surfaces thoroughly every 7-10 days."⟩
    , ⟨"Sanitation", "Remove infected leaves and plant debris to reduce spread.", 75, "Carefully prune affected parts and dispose of properly, not in compost."⟩
    , ⟨"Crop Rotation", "Avoid planting tomatoes or potatoes in the same location for 2-3 years.", 65, "Plan garden layout to rotate nightshade family crops."⟩ ]
  productRecommendations :=
    [ ⟨"Daconil", "Chemical Fungicide", "Contains chlorothalonil, effective against early blight.", some "https://images.unsplash.com/photo-1615811361523-6bd03d7748e7?w=400&q=80"⟩
    , ⟨"Bonide Copper Fungicide", "Organic Fungicide", "Copper-based fungicide suitable for organic gardening.", some "https://images.unsplash.com/photo-1622557850710-0c33f1c9a9a5?w=400&q=80"⟩ ]

/-- The `bacterial_spot` entry of `DISEASE_INFO` in `ml-model.ts`. -/
def bacterialSpotInfo : DiseaseInfoBase where
  description := "Bacterial spot is a serious disease affecting tomatoes and peppers, causing spots on leaves, stems, and fruit that can lead to defoliation and yield loss."
  symptoms := ["Small, dark, water-soaked spots on leaves", "Spots with yellow halos", "Scabby lesions on fruit", "Defoliation"]
  treatmentOptions :=
    [ ⟨"Copper Treatment", "Apply copper-based bactericide at first sign of disease.", 70, "Spray plants thoroughly, covering all surfaces every 7-10 days."⟩
    , ⟨"Plant Spacing", "Increase spacing between plants to improve air circulation.", 60, "Space plants at least 24 inches apart in all directions."⟩
    , ⟨"Avoid Wet Foliage", "Water at the base of plants and avoid overhead irrigation.", 65, "Use drip irrigation or soaker hoses instead of sprinklers."⟩ ]
  productRecommendations :=
    [ ⟨"Kocide 3000", "Copper Hydroxide", "Effective copper formulation for bacterial diseases.", some "https://images.unsplash.com/photo-1622557850710-0c33f1c9a9a5?w=400&q=80"⟩
    , ⟨"Agri-mycin 17", "Streptomycin Sulfate", "Antibiotic treatment for bacterial plant diseases.", some "https://images.unsplash.com/photo-1620662736427-b8a198f52a4d?w=400&q=80"⟩ ]

/-- The `black_rot` entry of `DISEASE_INFO` in `ml-model.ts`. -/
def blackRotInfo : DiseaseInfoBase where
  description := "Black rot is a serious fungal disease of grapes that can destroy entire vineyards if not controlled. It affects leaves, shoots, and fruit."
  symptoms := ["Circular lesions with dark borders on leaves", "Brown spots on berries that expand", "Mummified fruit", "Cankers on stems"]
  treatmentOptions :=
    [ ⟨"Fungicide Program", "Apply preventative fungicides from bud break through harvest.", 85, "Spray on a 10-14 day schedule, more frequently in wet weather."⟩
    , ⟨"Canopy Management", "Prune and train vines to improve air circulation and sun exposure.", 75, "Remove excess shoots and position remaining shoots for maximum airflow."⟩
    , ⟨"Sanitation", "Remove mummified fruit and infected plant parts.", 70, "Prune out infected material and destroy (don\x27t compost)."⟩ ]
  productRecommendations :=
    [ ⟨"Mancozeb", "Protective Fungicide", "Broad-spectrum fungicide effective against black rot.", some "https://images.unsplash.com/photo-1620662736427-b8a198f52a4d?w=400&q=80"⟩
    , ⟨"Myclobutanil", "Systemic Fungicide", "Provides both protective and curative action against black rot.", some "https://images.unsplash.com/photo-1615811361523-6bd03d7748e7?w=400&q=80"⟩ ]

/-- The `powdery_mildew` entry of `DISEASE_INFO` in `ml-model.ts`. -/
def powderyMildewInfo : DiseaseInfoBase where
  description := "Powdery mildew is a fungal disease that affects a wide range of plants. It appears as white powdery spots on leaves and stems, and can reduce yield and quality."
  symptoms := ["White powdery spots on leaves and stems", "Yellowing leaves", "Distorted new growth", "Premature leaf drop"]
  treatmentOptions :=
    [ ⟨"Sulfur Application", "Apply sulfur-based fungicide at first sign of infection.", 80, "Dust or spray plants thoroughly, covering all surfaces."⟩
    , ⟨"Potassium Bicarbonate", "Apply potassium bicarbonate spray as an organic treatment.", 75, "Mix according to label directions and spray all plant surfaces."⟩
    , ⟨"Improve Air Circulation", "Prune plants to improve air flow and reduce humidity.", 65, "Remove crowded stems and space plants properly."⟩ ]
  productRecommendations :=
    [ ⟨"Safer Brand Garden Fungicide", "Sulfur-Based", "OMRI listed sulfur fungicide for organic gardening.", some "https://images.unsplash.com/photo-1622557850710-0c33f1c9a9a5?w=400&q=80"⟩
    , ⟨"GreenCure", "Potassium Bicarbonate", "Organic fungicide that changes leaf surface pH to prevent infection.", some "https://images.unsplash.com/photo-1615811361523-6bd03d7748e7?w=400&q=80"⟩ ]

/-- The `healthy` entry of `DISEASE_INFO` in `ml-model.ts`; its symptom list
is empty. -/
def healthyInfo : DiseaseInfoBase where
  description := "Your plant appears to be healthy with no signs of disease or nutrient deficiencies. Continue with regular care and maintenance."
  symptoms := []
  treatmentOptions :=
    [ ⟨"Regular Maintenance", "Continue with proper watering, fertilization, and pest monitoring.", 95, "Follow recommended care guidelines for your specific plant type."⟩
    , ⟨"Preventative Care", "Apply preventative treatments during high-risk disease periods.", 85, "Use organic or chemical preventatives according to seasonal needs."⟩ ]
  productRecommendations :=
    [ ⟨"Balanced Fertilizer", "Plant Nutrition", "Provides essential nutrients for continued plant health.", some "https://images.unsplash.com/photo-1615811361523-6bd03d7748e7?w=400&q=80"⟩
    , ⟨"Neem Oil", "Preventative Treatment", "Natural product that prevents various pests and diseases.", some "https://images.unsplash.com/photo-1622557850710-0c33f1c9a9a5?w=400&q=80"⟩ ]

/-- `DISEASE_INFO` of `ml-model.ts` as an association list: only six of the
ten disease classes have a detailed entry. -/
def DISEASE_INFO : List (String × DiseaseInfoBase) :=
  [ ("late_blight", lateBlightInfo)
  , ("early_blight", earlyBlightInfo)
  , ("bacterial_spot", bacterialSpotInfo)
  , ("black_rot", blackRotInfo)
  , ("powdery_mildew", powderyMildewInfo)
  , ("healthy", healthyInfo) ]

/-- The generic fallback content built by `getDiseaseInfo` for a disease
class without a `DISEASE_INFO` entry (`ml-model.ts`). -/
def genericDiseaseInfo (diseaseClass : DiseaseClass) : DiseaseInfo where
  name := diseaseClass.name
  plantType := diseaseClass.plantType
  description := diseaseClass.name ++ " is a plant disease affecting " ++ diseaseClass.plantType ++ " plants."
  symptoms := ["Leaf discoloration", "Stunted growth"]
  treatmentOptions := [⟨"General Treatment", "Consult with a plant specialist for specific treatment options.", 70, "As recommended by specialist."⟩]
  productRecommendations := [⟨"General Fungicide", "Broad Spectrum", "A general treatment that may help with various plant diseases.", some "https://images.unsplash.com/photo-1622557850710-0c33f1c9a9a5?w=400&q=80"⟩]

/-- `getDiseaseInfo` of `ml-model.ts`.  A `diseaseId` that is not in
`DISEASE_CLASSES` throws (`Unknown disease ID`); an id that is in
`DISEASE_CLASSES` but has no `DISEASE_INFO` entry gets the generic fallback
content.  The NLP description generator of the source returns the stored
description unchanged, so it is inlined. -/
def getDiseaseInfo (diseaseId : String) : Except String DiseaseInfo :=
  match DISEASE_CLASSES.find? (fun d => d.id == diseaseId) with
  | none => .error ("Unknown disease ID: " ++ diseaseId)
  | some diseaseClass =>
    match (DISEASE_INFO.find? (fun p => p.1 == diseaseId)).map Prod.snd with
    | none => .ok (genericDiseaseInfo diseaseClass)
    | some base =>
      .ok { name := diseaseClass.name
          , plantType := diseaseClass.plantType
          , description := base.description
          , symptoms := base.symptoms
          , treatmentOptions := base.treatmentOptions
          , productRecommendations := base.productRecommendations }

/-- A classification result: disease identifier plus integer confidence
(the `{diseaseId, confidence}` objects of the source). -/
structure ClassResult where
  diseaseId : String
  confidence : Int
deriving Repr, DecidableEq

/-- The `DiagnosisResult` record of `api.ts`.  `diseaseName` is `Option`
because the source sets it to `undefined` for healthy plants. -/
structure DiagnosisResult where
  id : String
  isHealthy : Bool
  diseaseName : Option String
  confidenceScore : Int
  description : String
  symptoms : List String
  treatmentOptions : List TreatmentOption
  productRecommendations : List ProductRecommendation
  plantType : String
  imageUrl : String
  timestamp : String
deriving Repr, DecidableEq

/-- Lines 169–189 of `api.ts`: build the `DiagnosisResult` from a model
result.  `isHealthy` is computed from `diseaseId == "healthy"`, never passed
in; the fresh uuid and timestamp are parameters here.  `getDiseaseInfo` can
throw, which propagates (it is caught by the outer handler of
`analyzePlantImage`, outside this definition). -/
def assembleDiagnosis (modelResult : ClassResult) (diagnosisId imageUrl timestamp : String) :
    Except String DiagnosisResult :=
  match getDiseaseInfo modelResult.diseaseId with
  | .error e => .error e
  | .ok diseaseInfo =>
    let isHealthy := modelResult.diseaseId == "healthy"
    .ok { id := diagnosisId
        , isHealthy := isHealthy
        , diseaseName := if isHealthy then none else some diseaseInfo.name
        , confidenceScore := modelResult.confidence
        , description := diseaseInfo.description
        , symptoms := diseaseInfo.symptoms
        , treatmentOptions := diseaseInfo.treatmentOptions
        , productRecommendations := diseaseInfo.productRecommendations
        , plantType := diseaseInfo.plantType
        , imageUrl := imageUrl
        , timestamp := timestamp }

/-- `Math.round` of JavaScript on a rational: `floor (q + 1/2)`. -/
def jsRound (q : ℚ) : Int := ⌊q + (1 : ℚ)/2⌋

/-- `getLocalDiseaseData` of `api.ts` (the tier-4 random stub):
`confidence = Math.round(70 + Math.random() * 20)`; the `Math.random()` draw
is the explicit parameter `u`. -/
def getLocalDiseaseData (diseaseId : String) (u : ℚ) : ClassResult :=
  { diseaseId := diseaseId, confidence := jsRound (70 + u * 20) }

/-- The four-tier fallback chain of `analyzePlantImage` (`api.ts`,
lines 124–164).  Each of the three fallible tiers is given by its outcome
(`Except`, mirroring promise rejection); tier 4 (`getLocalDiseaseData`)
never throws.  The nested `try`/`catch` structure of the source is the
nested `match`.  Besides the result, the function returns the tier tag the
source stores in `approachUsed` and the ordered list of tiers invoked. -/
def analyzeTiers (t1 t2 t3 : Except String ClassResult) (fallbackDiseaseId : String) (u : ℚ) :
    ClassResult × String × List Nat :=
  match t1 with
  | .ok r => (r, "tensorflow-worker", [1])
  | .error _ =>
    match t2 with
    | .ok r => (r, "tensorflow-main", [1, 2])
    | .error _ =>
      match t3 with
      | .ok r => (r, "classical-ml", [1, 2, 3])
      | .error _ => (getLocalDiseaseData fallbackDiseaseId u, "random-fallback", [1, 2, 3, 4])

/-- `saveDiagnosisToDatabase` of `api.ts`.  The backing store is modelled as
a most-recent-first list of records; `connected` is the
`checkSupabaseConnection()` outcome and `insertFails` whether the insert
reports an error.  Disconnected or low-confidence (`< 75`) saves return
without touching the store; a failed insert throws. -/
def saveDiagnosisToDatabase (connected : Bool) (insertFails : Bool)
    (store : List DiagnosisResult) (result : DiagnosisResult) :
    Except String (List DiagnosisResult) :=
  if !connected then .ok store
  else if result.confidenceScore < 75 then .ok store
  else if insertFails then .error "Failed to save diagnosis results"
  else .ok (result :: store)

/-- `getDiagnosisHistory` of `api.ts`: the stored records, most recent
first (the store list already has that order); empty when disconnected. -/
def getDiagnosisHistory (connected : Bool) (store : List DiagnosisResult) :
    List DiagnosisResult :=
  if connected then store else []

/-- Lines 191–200 of `analyzePlantImage` (`api.ts`): try to save the
assembled record, swallow any save error, and return the record to the
caller in either case.  Returns the caller-visible record and the new
store contents. -/
def finalizeDiagnosis (connected insertFails : Bool) (store : List DiagnosisResult)
    (result : DiagnosisResult) : DiagnosisResult × List DiagnosisResult :=
  match saveDiagnosisToDatabase connected insertFails store result with
  | .ok store1 => (result, store1)
  | .error _ => (result, store)

/-! ## Background execution channel: correlation-map transition system

Model of the pending-promise bookkeeping of the worker-channel module
(`sendWorkerMessage`, `worker.onmessage`, `worker.onerror`, the response
timeout).  `pending` is the key set of `pendingPromises`; `outcome id`
records how the promise of request `id` settled (`none` = still
unsettled).  JS promises settle at most once: every settling operation
goes through `settleOne`, which leaves an already settled promise
unchanged. -/

/-- The channel-level failures of the worker-channel module, as distinct
conditions. -/
inductive ChannelError where
  | workerNotInit
  | timedOut
  | workerReported (msg : String)
  | workerError
  | sendFailed
deriving Repr, DecidableEq

/-- Settle a promise: a no-op if it is already settled (JS once-only
settlement). -/
def settleOne (o : Option (Except ChannelError ClassResult))
    (v : Except ChannelError ClassResult) : Option (Except ChannelError ClassResult) :=
  match o with
  | none => some v
  | some w => some w

/-- State of the correlation map: the monotone `messageId` counter, the key
set of `pendingPromises`, and the settlement record of every request id. -/
structure MapState where
  messageId : Nat
  pending : List Nat
  outcome : Nat → Option (Except ChannelError ClassResult)

/-- Events acting on the correlation map:
* `send` — `sendWorkerMessage` registers `messageId` and increments it;
* `timeoutFire id` — the response timeout of request `id` fires; it can
  only fire while the entry exists and its promise is unsettled, because
  every settlement path runs `clearTimeout` first;
* `response id payload` — `worker.onmessage`: unmatched ids are dropped,
  matched ids are settled (a no-op when already settled) and removed;
* `workerError` — `worker.onerror` rejects every pending promise but does
  not remove the map entries (as in the source). -/
inductive ChannelEvent where
  | send
  | timeoutFire (id : Nat)
  | response (id : Nat) (payload : Except String ClassResult)
  | workerError

/-- One transition of the correlation map. -/
def channelStep (st : MapState) (e : ChannelEvent) : MapState :=
  match e with
  | .send =>
      { st with messageId := st.messageId + 1, pending := st.messageId :: st.pending }
  | .timeoutFire id =>
      if id ∈ st.pending then
        match st.outcome id with
        | some _ => st
        | none =>
          { st with
              pending := st.pending.erase id,
              outcome := fun j => if j = id then settleOne (st.outcome j) (.error .timedOut) else st.outcome j }
      else st
  | .response id payload =>
      if id ∈ st.pending then
        { st with
            pending := st.pending.erase id,
            outcome := fun j =>
              if j = id then
                settleOne (st.outcome j)
                  (match payload with
                   | .error msg => .error (.workerReported msg)
                   | .ok r => .ok r)
              else st.outcome j }
      else st
  | .workerError =>
      { st with outcome := fun j =>
          if j ∈ st.pending then settleOne (st.outcome j) (.error .workerError) else st.outcome j }

/-- Run a list of channel events. -/
def channelSteps (st : MapState) (es : List ChannelEvent) : MapState :=
  es.foldl channelStep st

/-! ## Background execution channel: init / fallback control flow

Model of `initWorker`, `processFallback` and `processImageInWorker` of the
worker-channel module.  Each awaited asynchronous outcome is an explicit
parameter (`InitOutcome` for how the one-shot init promise settles,
`sendOutcome` for how `sendWorkerMessage` settles); the module-level
mutable variables form `CState`. -/

/-- The module-level mutable state of the worker-channel module.
`isInit` is `isInitialized` of the source, `attempts` is the
initialization-attempt counter of the source, `workerExists` is
`worker !== null`, and `spawned` counts the `new Worker(...)` calls
performed. -/
structure CState where
  isInit : Bool
  fallbackToMainThread : Bool
  attempts : Nat
  workerExists : Bool
  spawned : Nat
deriving Repr, DecidableEq

/-- `MAX_INIT_ATTEMPTS` of the source. -/
def MAX_INIT_ATTEMPTS : Nat := 3

/-- Environment checks performed by `initWorker`. -/
structure BrowserEnv where
  isBrowser : Bool
  windowWorker : Bool
  workerCtor : Bool
deriving Repr, DecidableEq

/-- How the one-shot worker-creation promise inside `initWorker` settles:
the worker replies to the init message (`replySuccess`), the reply carries
an error (`replyError`), `worker.onerror` fires (`workerErrored`), the 10 s
init timeout fires (`timedOut`), or creating/posting throws
(`createThrew`). -/
inductive InitOutcome where
  | replySuccess (success : Bool)
  | replyError
  | workerErrored
  | timedOut
  | createThrew
deriving Repr, DecidableEq

/-- `initWorker` of the worker-channel module.  Returns the boolean the
promise resolves with and the new module state.  Branches mirror the
source in order: the already-initialized early return, the attempt cap,
the browser check, the attempt increment, the `window.Worker` check, the
early `return isInitialized` when a worker instance already exists, the
`typeof Worker` check, then worker creation and the settlement of the
creation promise.  On the failure settlements the source sets
`fallbackToMainThread` only when the (post-increment) attempt counter has
reached the cap; a plain `success === false` init reply sets it never. -/
def initWorker (st : CState) (env : BrowserEnv) (o : InitOutcome) : Bool × CState :=
  if st.isInit then (true, st)
  else if MAX_INIT_ATTEMPTS ≤ st.attempts then
    (false, { st with fallbackToMainThread := true })
  else if !env.isBrowser then
    (false, { st with fallbackToMainThread := true })
  else
    let st1 := { st with attempts := st.attempts + 1 }
    if !env.windowWorker then (false, { st1 with fallbackToMainThread := true })
    else if st1.workerExists then (st1.isInit, st1)
    else if !env.workerCtor then (false, { st1 with fallbackToMainThread := true })
    else
      let atCap := decide (MAX_INIT_ATTEMPTS ≤ st1.attempts)
      match o with
      | .createThrew =>
          (false, { st1 with fallbackToMainThread := st1.fallbackToMainThread || atCap })
      | .replySuccess success =>
          (success, { st1 with workerExists := true, spawned := st1.spawned + 1, isInit := success })
      | .replyError =>
          (false, { st1 with workerExists := true, spawned := st1.spawned + 1, isInit := false,
                             fallbackToMainThread := st1.fallbackToMainThread || atCap })
      | .workerErrored =>
          (false, { st1 with workerExists := true, spawned := st1.spawned + 1, isInit := false,
                             fallbackToMainThread := st1.fallbackToMainThread || atCap })
      | .timedOut =>
          (false, { st1 with workerExists := true, spawned := st1.spawned + 1, isInit := false,
                             fallbackToMainThread := st1.fallbackToMainThread || atCap })

/-- The six-element `DISEASE_CLASSES` list of `processFallback` in the
worker-channel module. -/
def DISEASE_CLASSES_WORKER : List String :=
  ["healthy", "late_blight", "early_blight", "bacterial_spot", "black_rot", "powdery_mildew"]

/-- `processFallback` of the worker-channel module: a random stub with
`diseaseId = DISEASE_CLASSES[Math.floor(u1 * 6)]` and
`confidence = 70 + Math.floor(u2 * 20)`; the two `Math.random()` draws are
the explicit parameters. -/
def processFallback (u1 u2 : ℚ) : ClassResult :=
  { diseaseId := DISEASE_CLASSES_WORKER.getD (⌊u1 * 6⌋).toNat ""
  , confidence := 70 + ⌊u2 * 20⌋ }

/-- Result of one `processImageInWorker` call: how its promise settles, the
new module state, and whether the `if (fallbackToMainThread)` branch was
taken (in which case no message was sent to a worker). -/
structure WorkerCallResult where
  result : Except ChannelError ClassResult
  state : CState
  viaFallbackBranch : Bool
deriving Repr

/-- `processImageInWorker` of the worker-channel module: run `initWorker`
when neither initialized nor in fallback, take the degraded
`processFallback` path when `fallbackToMainThread` is set, otherwise
forward the `sendWorkerMessage` outcome — where the enclosing `catch`
turns any rejection into a `processFallback` result. -/
def processImageInWorker (st : CState) (env : BrowserEnv) (o : InitOutcome)
    (sendOutcome : Except ChannelError ClassResult) (u1 u2 : ℚ) : WorkerCallResult :=
  let st1 := if !st.isInit && !st.fallbackToMainThread then (initWorker st env o).2 else st
  if st1.fallbackToMainThread then ⟨.ok (processFallback u1 u2), st1, true⟩
  else
    match sendOutcome with
    | .ok r => ⟨.ok r, st1, false⟩
    | .error _ => ⟨.ok (processFallback u1 u2), st1, false⟩

/-! ## Pixel-level operations -/

/-- A 4-channel 8-bit pixel of a decoded buffer. -/
structure Pixel where
  r : Nat
  g : Nat
  b : Nat
  a : Nat
deriving Repr, DecidableEq

/-- The per-pixel foreground test of `segmentImage` (image-worker document
of `worker-client.ts`): `g > r * threshold && g > b * threshold`. -/
def isForeground (threshold : ℚ) (p : Pixel) : Bool :=
  ((p.r : ℚ) * threshold < (p.g : ℚ)) && ((p.b : ℚ) * threshold < (p.g : ℚ))

/-- The per-pixel output of `segmentImage`: foreground pixels are kept
unchanged; background pixels become fully transparent white or a flat
light gray keeping the original alpha, per `transparentBackground`. -/
def segmentPixel (threshold : ℚ) (transparentBackground : Bool) (p : Pixel) : Pixel :=
  if isForeground threshold p then p
  else if transparentBackground then ⟨255, 255, 255, 0⟩
  else ⟨240, 240, 240, p.a⟩

/-- `segmentImage` over a decoded buffer given as a pixel list. -/
def segmentImage (threshold : ℚ) (transparentBackground : Bool) (data : List Pixel) :
    List Pixel :=
  data.map (segmentPixel threshold transparentBackground)

/-- Number of pixels classified as foreground. -/
def foregroundCount (threshold : ℚ) (data : List Pixel) : Nat :=
  (data.filter (isForeground threshold)).length

/-- Per-pixel brightness of `checkImageContent` (image-processor document
of `model-worker.ts`): `Math.round((r + g + b) / 3)`, which for natural
channel values is `(2 * (r + g + b) + 3) / 6` in integer division. -/
def brightness (p : Pixel) : Nat := (2 * (p.r + p.g + p.b) + 3) / 6

/-- Mean per-pixel brightness over the full buffer (`sum / pixelCount`). -/
def meanBrightness (data : List Pixel) : ℚ :=
  ((data.map brightness).sum : ℚ) / (data.length : ℚ)

/-- Outcome of `checkImageContent`. -/
inductive ContentCheck where
  | tooSmall
  | tooDark
  | tooBright
  | valid
deriving Repr, DecidableEq

/-- `checkImageContent` of the image-processor document: reject images whose
smaller dimension is below 50, then compare the mean brightness of the
decoded buffer against the low-light threshold 20 and the overexposure
threshold 235 (both strict, as in the source). -/
def checkImageContent (width height : Nat) (data : List Pixel) : ContentCheck :=
  if min width height < 50 then .tooSmall
  else if meanBrightness data < 20 then .tooDark
  else if 235 < meanBrightness data then .tooBright
  else .valid

/-- A sample below-threshold record (confidence 60), used as a concrete
input. -/
def lowConfRecord : DiagnosisResult where
  id := "diag-low"
  isHealthy := false
  diseaseName := some "Late Blight"
  confidenceScore := 60
  description := "sample"
  symptoms := []
  treatmentOptions := []
  productRecommendations := []
  plantType := "Tomato"
  imageUrl := "url-low"
  timestamp := "t0"

/-- A sample above-threshold record (confidence 80), used as a concrete
input. -/
def highConfRecord : DiagnosisResult where
  id := "diag-high"
  isHealthy := false
  diseaseName := some "Early Blight"
  confidenceScore := 80
  description := "sample"
  symptoms := []
  treatmentOptions := []
  productRecommendations := []
  plantType := "Tomato"
  imageUrl := "url-high"
  timestamp := "t1"

/-! ## Theorems -/

/-- Claim C2, counterexample: an identifier outside the known disease-class
list makes `getDiseaseInfo` throw `Unknown disease ID`, rather than return a
generic fallback record. -/
theorem getDiseaseInfo_unknown_id_throws :
    getDiseaseInfo "mystery_disease" = .error "Unknown disease ID: mystery_disease" := rfl

/-- Claim C2, amended: for every identifier in the known disease-class list
`getDiseaseInfo` succeeds (identifiers lacking a detailed `DISEASE_INFO`
entry, such as `downy_mildew`, get the generic fallback record); an
identifier outside the list throws `Unknown disease ID`. -/
theorem getDiseaseInfo_amended_spec (diseaseId : String) :
    (∀ c ∈ DISEASE_CLASSES, ∃ info, getDiseaseInfo c.id = .ok info)
    ∧ ((∀ c ∈ DISEASE_CLASSES, c.id ≠ diseaseId) →
        getDiseaseInfo diseaseId = .error ("Unknown disease ID: " ++ diseaseId))
    ∧ getDiseaseInfo "downy_mildew" =
        .ok (genericDiseaseInfo ⟨"downy_mildew", "Downy Mildew", "Cucumber"⟩) := by
  refine ⟨?_, ?_, rfl⟩
  · intro c hc
    fin_cases hc <;> exact ⟨_, rfl⟩
  · intro h
    have hfind : DISEASE_CLASSES.find? (fun d => d.id == diseaseId) = none := by
      apply List.find?_eq_none.mpr
      intro x hx
      simpa using h x hx
    simp [getDiseaseInfo, hfind]

/-- Claim C2, witness for the amended statement at concrete inputs. -/
theorem getDiseaseInfo_amended_witness :
    (∃ info, getDiseaseInfo "healthy" = .ok info)
    ∧ getDiseaseInfo "mystery_disease" = .error "Unknown disease ID: mystery_disease" := by
  refine ⟨(getDiseaseInfo_amended_spec "healthy").1 ⟨"healthy", "Healthy", "General"⟩ ?_, ?_⟩
  · simp [DISEASE_CLASSES]
  · exact (getDiseaseInfo_amended_spec "mystery_disease").2.1 (by decide)

/-- Claim C6: assembling a diagnosis from a `"healthy"` classification gives
`isHealthy = true` (computed from the identifier inside the assembler),
`diseaseName = none` and an empty symptom list; and every record the
assembler produces with `isHealthy = true` carries no disease name and no
symptoms. -/
theorem healthy_diagnosis_exclusive (confidence : Int)
    (diagnosisId imageUrl timestamp : String) :
    (∃ rec, assembleDiagnosis ⟨"healthy", confidence⟩ diagnosisId imageUrl timestamp = .ok rec
        ∧ rec.isHealthy = true ∧ rec.diseaseName = none ∧ rec.symptoms = [])
    ∧ (∀ (mr : ClassResult) (rec : DiagnosisResult),
        assembleDiagnosis mr diagnosisId imageUrl timestamp = .ok rec →
        rec.isHealthy = true →
        rec.diseaseName = none ∧ rec.symptoms = []) := by
  constructor
  · exact ⟨_, rfl, rfl, rfl, rfl⟩
  · intro mr rec h hh
    unfold assembleDiagnosis at h
    rcases hg : getDiseaseInfo mr.diseaseId with e | info
    · rw [hg] at h
      cases h
    · rw [hg] at h
      simp only [Except.ok.injEq] at h
      subst h
      simp only at hh
      have hd : mr.diseaseId = "healthy" := by
        by_contra hne
        rw [beq_eq_false_iff_ne.mpr hne] at hh
        cases hh
      rw [hd] at hg
      have hinfo : info = { name := "Healthy", plantType := "General",
                            description := healthyInfo.description,
                            symptoms := healthyInfo.symptoms,
                            treatmentOptions := healthyInfo.treatmentOptions,
                            productRecommendations := healthyInfo.productRecommendations } := by
        have hcomp : getDiseaseInfo "healthy" =
            .ok { name := "Healthy", plantType := "General",
                  description := healthyInfo.description,
                  symptoms := healthyInfo.symptoms,
                  treatmentOptions := healthyInfo.treatmentOptions,
                  productRecommendations := healthyInfo.productRecommendations } := rfl
        rw [hcomp] at hg
        exact (Except.ok.inj hg).symm
      subst hinfo
      simp [hd, healthyInfo]

/-- Claim C6, witness: the concrete classification
`(diseaseIdentifier = healthy, confidenceScore = 92)`. -/
theorem healthy_diagnosis_exclusive_witness :
    ∃ rec, assembleDiagnosis ⟨"healthy", 92⟩ "id-1" "url" "ts" = .ok rec
        ∧ rec.isHealthy = true ∧ rec.diseaseName = none ∧ rec.symptoms = [] :=
  (healthy_diagnosis_exclusive 92 "id-1" "url" "ts").1

/-- Claim C7: the caller always gets the assembled record back unchanged; a
record with confidence below 75 is never persisted, so it does not appear
in a later history listing; a record at or above 75 is persisted when the
store is reachable and the insert succeeds. -/
theorem confidence_threshold_persistence (connected insertFails : Bool)
    (store : List DiagnosisResult) (rec : DiagnosisResult) :
    ((finalizeDiagnosis connected insertFails store rec).1 = rec)
    ∧ (rec.confidenceScore < 75 →
        (finalizeDiagnosis connected insertFails store rec).2 = store
        ∧ (rec ∉ store →
            rec ∉ getDiagnosisHistory connected (finalizeDiagnosis connected insertFails store rec).2))
    ∧ (75 ≤ rec.confidenceScore → connected = true → insertFails = false →
        (finalizeDiagnosis connected insertFails store rec).2 = rec :: store
        ∧ rec ∈ getDiagnosisHistory connected (rec :: store)) := by
  refine ⟨?_, ?_, ?_⟩
  · unfold finalizeDiagnosis saveDiagnosisToDatabase
    cases connected <;> cases insertFails <;> split_ifs <;> rfl
  · intro hlow
    have hstore : (finalizeDiagnosis connected insertFails store rec).2 = store := by
      unfold finalizeDiagnosis saveDiagnosisToDatabase
      cases connected <;> simp [hlow]
    refine ⟨hstore, ?_⟩
    intro hfresh
    rw [hstore]
    unfold getDiagnosisHistory
    cases connected <;> simp [hfresh]
  · intro hhigh hconn hins
    subst hconn
    subst hins
    have hns : ¬rec.confidenceScore < 75 := not_lt.mpr hhigh
    refine ⟨?_, ?_⟩
    · unfold finalizeDiagnosis saveDiagnosisToDatabase
      simp [hns]
    · unfold getDiagnosisHistory
      simp

/-- Claim C7, witness: a confidence-60 record is returned to the caller but
absent from the history; a confidence-80 record is persisted. -/
theorem confidence_threshold_persistence_witness :
    ((finalizeDiagnosis true false [] lowConfRecord).1 = lowConfRecord
      ∧ lowConfRecord ∉ getDiagnosisHistory true (finalizeDiagnosis true false [] lowConfRecord).2)
    ∧ (finalizeDiagnosis true false [] highConfRecord).2 = [highConfRecord] := by
  have hlow := confidence_threshold_persistence true false [] lowConfRecord
  have hhigh := confidence_threshold_persistence true false [] highConfRecord
  refine ⟨⟨hlow.1, (hlow.2.1 (by decide)).2 (by simp)⟩, (hhigh.2.2 (by decide) rfl rfl).1⟩

/-- Claim C1: the orchestrator attempts its tiers in strict order and only
falls through on a throw.  When tier 1 and tier 2 both throw, tier 3
appears exactly once in the invocation trace, and if tier 3 succeeds its
result (tagged `classical-ml`) is returned.  The final conjunct shows for
all tier outcomes that a successful tier ends the trace, so no tier runs
after an earlier one succeeded, and that only total failure reaches the
random stub. -/
theorem orchestrator_strict_tier_order (t1 t2 t3 : Except String ClassResult)
    (fallbackDiseaseId : String) (u : ℚ) (err1 err2 : String)
    (h1 : t1 = .error err1) (h2 : t2 = .error err2) :
    ((analyzeTiers t1 t2 t3 fallbackDiseaseId u).2.2.count 3 = 1)
    ∧ (∀ r, t3 = .ok r →
        analyzeTiers t1 t2 t3 fallbackDiseaseId u = (r, "classical-ml", [1, 2, 3]))
    ∧ (∀ (s2 s3 : Except String ClassResult) (r : ClassResult),
        ((analyzeTiers (.ok r) s2 s3 fallbackDiseaseId u).2.2 = [1])
        ∧ (∀ e, (analyzeTiers (.error e) (.ok r) s3 fallbackDiseaseId u).2.2 = [1, 2])
        ∧ (∀ e e', (analyzeTiers (.error e) (.error e') (.ok r) fallbackDiseaseId u).2.2
              = [1, 2, 3])
        ∧ (∀ e e' e'', analyzeTiers (.error e) (.error e') (.error e'') fallbackDiseaseId u
              = (getLocalDiseaseData fallbackDiseaseId u, "random-fallback", [1, 2, 3, 4]))) := by
  subst h1
  subst h2
  refine ⟨?_, ?_, ?_⟩
  · cases t3 <;> simp [analyzeTiers]
  · intro r h3
    subst h3
    rfl
  · intro s2 s3 r
    exact ⟨rfl, fun e => rfl, fun e e' => rfl, fun e e' e'' => rfl⟩

/-- Claim C1, witness: both upper tiers throw and tier 3 succeeds. -/
theorem orchestrator_strict_tier_order_witness :
    analyzeTiers (.error "worker failed") (.error "main failed")
        (.ok ⟨"late_blight", 80⟩) "healthy" 0
      = (⟨"late_blight", 80⟩, "classical-ml", [1, 2, 3])
    ∧ (analyzeTiers (.error "worker failed") (.error "main failed")
        (.ok ⟨"late_blight", 80⟩) "healthy" 0).2.2.count 3 = 1 := by
  have h := orchestrator_strict_tier_order (.error "worker failed") (.error "main failed")
      (.ok ⟨"late_blight", 80⟩) "healthy" 0 "worker failed" "main failed" rfl rfl
  exact ⟨h.2.1 _ rfl, h.1⟩

/-- Claim C10: `processImageInWorker` never rejects; whenever the degraded
path is reached (fallback flag set or the worker send rejecting), the
resolved value is the `processFallback` stub, whose disease id comes from
the fixed six-element list and whose confidence is an integer between 70
and 89. -/
theorem worker_tier_never_rejects (st : CState) (env : BrowserEnv) (o : InitOutcome)
    (sendOutcome : Except ChannelError ClassResult) (u1 u2 : ℚ)
    (hu1 : 0 ≤ u1) (hu1lt : u1 < 1) (hu2 : 0 ≤ u2) (hu2lt : u2 < 1) :
    (∃ r, (processImageInWorker st env o sendOutcome u1 u2).result = .ok r)
    ∧ (processFallback u1 u2).diseaseId ∈ DISEASE_CLASSES_WORKER
    ∧ 70 ≤ (processFallback u1 u2).confidence
    ∧ (processFallback u1 u2).confidence ≤ 89
    ∧ (((processImageInWorker st env o sendOutcome u1 u2).state.fallbackToMainThread = true
          ∨ ∃ e, sendOutcome = .error e) →
        (processImageInWorker st env o sendOutcome u1 u2).result
          = .ok (processFallback u1 u2)) := by
  have hfloor1 : (0 : ℤ) ≤ ⌊u1 * 6⌋ := Int.floor_nonneg.mpr (by positivity)
  have hfloor1lt : ⌊u1 * 6⌋ < 6 := by
    apply Int.floor_lt.mpr
    push_cast
    nlinarith
  have hidx : (⌊u1 * 6⌋).toNat < DISEASE_CLASSES_WORKER.length := by
    have : (⌊u1 * 6⌋).toNat < 6 := by omega
    simpa [DISEASE_CLASSES_WORKER] using this
  have hfloor2 : (0 : ℤ) ≤ ⌊u2 * 20⌋ := Int.floor_nonneg.mpr (by positivity)
  have hfloor2lt : ⌊u2 * 20⌋ < 20 := by
    apply Int.floor_lt.mpr
    push_cast
    nlinarith
  refine ⟨?_, ?_, ?_, ?_, ?_⟩
  · by_cases hf : (if st.isInit = false ∧ st.fallbackToMainThread = false
        then (initWorker st env o).2 else st).fallbackToMainThread = true
    · exact ⟨processFallback u1 u2, by simp [processImageInWorker, hf]⟩
    · cases sendOutcome with
      | ok r => exact ⟨r, by simp [processImageInWorker, hf]⟩
      | error e => exact ⟨processFallback u1 u2, by simp [processImageInWorker, hf]⟩
  · unfold processFallback
    simp only
    rw [List.getD_eq_getElem _ _ hidx]
    exact List.getElem_mem _
  · unfold processFallback
    simp only
    omega
  · unfold processFallback
    simp only
    omega
  · intro hfail
    by_cases hf : (if st.isInit = false ∧ st.fallbackToMainThread = false
        then (initWorker st env o).2 else st).fallbackToMainThread = true
    · simp [processImageInWorker, hf]
    · cases sendOutcome with
      | ok r =>
          rcases hfail with hfb | ⟨e, he⟩
          · exact absurd (by simpa [processImageInWorker, hf] using hfb) hf
          · cases he
      | error e => simp [processImageInWorker, hf]

/-- Claim C10, witness: fallback flag set and the send timing out still
resolve with an in-range stub. -/
theorem worker_tier_never_rejects_witness :
    (processImageInWorker ⟨false, true, 0, false, 0⟩ ⟨true, true, true⟩ (.replySuccess true)
        (.error .timedOut) 0 0).result = .ok (processFallback 0 0)
    ∧ (processFallback 0 0).diseaseId ∈ DISEASE_CLASSES_WORKER
    ∧ 70 ≤ (processFallback 0 0).confidence
    ∧ (processFallback 0 0).confidence ≤ 89 := by
  have h := worker_tier_never_rejects ⟨false, true, 0, false, 0⟩ ⟨true, true, true⟩
      (.replySuccess true) (.error .timedOut) 0 0
      (by norm_num) (by norm_num) (by norm_num) (by norm_num)
  exact ⟨h.2.2.2.2 (Or.inr ⟨.timedOut, rfl⟩), h.2.1, h.2.2.1, h.2.2.2.1⟩

/-- Claim C5: once the three initialization attempts are exhausted without
success, every later `initWorker` call returns `false`, spawns no worker,
and sets the fallback flag; the fallback flag, once set, is preserved by
every `initWorker` call; and from an exhausted state (or any
fallback-flagged state) every `processImageInWorker` call takes the
degraded `processFallback` branch without sending to a worker. -/
theorem init_attempt_cap_permanent (st : CState) (env : BrowserEnv) (o : InitOutcome)
    (hcap : MAX_INIT_ATTEMPTS ≤ st.attempts) (hni : st.isInit = false) :
    (initWorker st env o = (false, { st with fallbackToMainThread := true }))
    ∧ ((initWorker st env o).2.spawned = st.spawned)
    ∧ ((initWorker st env o).2.fallbackToMainThread = true)
    ∧ (∀ (st' : CState) (env' : BrowserEnv) (o' : InitOutcome),
        st'.fallbackToMainThread = true →
        (initWorker st' env' o').2.fallbackToMainThread = true)
    ∧ (∀ (sendOutcome : Except ChannelError ClassResult) (u1 u2 : ℚ),
        (processImageInWorker st env o sendOutcome u1 u2).result
            = .ok (processFallback u1 u2)
        ∧ (processImageInWorker st env o sendOutcome u1 u2).viaFallbackBranch = true
        ∧ (processImageInWorker st env o sendOutcome u1 u2).state
            = { st with fallbackToMainThread := true })
    ∧ (∀ (st' : CState) (env' : BrowserEnv) (o' : InitOutcome)
        (sendOutcome : Except ChannelError ClassResult) (u1 u2 : ℚ),
        st'.fallbackToMainThread = true →
        processImageInWorker st' env' o' sendOutcome u1 u2
          = ⟨.ok (processFallback u1 u2), st', true⟩) := by
  have hmain : initWorker st env o = (false, { st with fallbackToMainThread := true }) := by
    unfold initWorker
    simp [hni, hcap]
  have hperm : ∀ (st' : CState) (env' : BrowserEnv) (o' : InitOutcome),
      st'.fallbackToMainThread = true →
      (initWorker st' env' o').2.fallbackToMainThread = true := by
    intro st' env' o' hf
    cases o' <;> unfold initWorker <;> split_ifs <;> (try simp [hf]) <;>
      (try split_ifs) <;> simp [hf]
  have hdeg : ∀ (st' : CState) (env' : BrowserEnv) (o' : InitOutcome)
      (sendOutcome : Except ChannelError ClassResult) (u1 u2 : ℚ),
      st'.fallbackToMainThread = true →
      processImageInWorker st' env' o' sendOutcome u1 u2
        = ⟨.ok (processFallback u1 u2), st', true⟩ := by
    intro st' env' o' sendOutcome u1 u2 hf
    unfold processImageInWorker
    simp [hf]
  refine ⟨hmain, by rw [hmain], by rw [hmain], hperm, ?_, hdeg⟩
  intro sendOutcome u1 u2
  by_cases hf : st.fallbackToMainThread = true
  · have h := hdeg st env o sendOutcome u1 u2 hf
    rw [h]
    refine ⟨rfl, rfl, ?_⟩
    cases st
    simp_all
  · have hst1 : (if !st.isInit && !st.fallbackToMainThread
        then (initWorker st env o).2 else st) = { st with fallbackToMainThread := true } := by
      rw [hmain]
      simp [hni, Bool.not_eq_true] at hf ⊢
      simp [hf]
    unfold processImageInWorker
    rw [hst1]
    simp

/-- Claim C5, witness: an exhausted state (three failed attempts) with a
worker-capable environment: no spawn, `false` returned, degraded path
taken. -/
theorem init_attempt_cap_permanent_witness :
    initWorker ⟨false, false, 3, false, 0⟩ ⟨true, true, true⟩ (.replySuccess true)
      = (false, ⟨false, true, 3, false, 0⟩)
    ∧ (processImageInWorker ⟨false, false, 3, false, 0⟩ ⟨true, true, true⟩
        (.replySuccess true) (.ok ⟨"ok", 99⟩) 0 0).viaFallbackBranch = true := by
  have h := init_attempt_cap_permanent ⟨false, false, 3, false, 0⟩ ⟨true, true, true⟩
      (.replySuccess true) (by decide) rfl
  exact ⟨h.1, (h.2.2.2.2.1 (.ok ⟨"ok", 99⟩) 0 0).2.1⟩

/-- Once a promise has settled, no single later channel event changes its
recorded outcome: JS promises settle at most once, and every settling path
of the source goes through the stored wrapper (or is dropped). -/
theorem channelStep_outcome_frozen (st : MapState) (e : ChannelEvent) (id : Nat)
    (v : Except ChannelError ClassResult) (h : st.outcome id = some v) :
    (channelStep st e).outcome id = some v := by
  cases e with
  | send => exact h
  | timeoutFire i =>
      simp only [channelStep]
      split_ifs with hm
      · rcases ho : st.outcome i with _ | w
        · simp only [ho]
          by_cases hij : id = i
          · subst hij
            rw [h] at ho
            cases ho
          · simp [hij, h]
        · simp [ho, h]
      · exact h
  | response i payload =>
      simp only [channelStep]
      split_ifs with hm
      · by_cases hij : id = i
        · subst hij
          simp [settleOne, h]
        · simp [hij, h]
      · exact h
  | workerError =>
      simp only [channelStep]
      by_cases hm : id ∈ st.pending
      · simp [hm, settleOne, h]
      · simp [hm, h]

/-- Settled promises stay settled with the same outcome across any event
sequence. -/
theorem channelSteps_outcome_frozen (es : List ChannelEvent) (st : MapState) (id : Nat)
    (v : Except ChannelError ClassResult) (h : st.outcome id = some v) :
    (channelSteps st es).outcome id = some v := by
  induction es generalizing st with
  | nil => exact h
  | cons e es ih =>
      simp only [channelSteps, List.foldl_cons]
      exact ih (channelStep st e) (channelStep_outcome_frozen st e id v h)

/-- Claim C3: when the response timeout of a pending, unsettled request
fires, exactly that request is rejected with the distinct timed-out
condition and its entry removed from the correlation map, while every
other id keeps its map membership and its settlement status. -/
theorem timeout_rejects_exactly_target (st : MapState) (id : Nat)
    (hnd : st.pending.Nodup) (hmem : id ∈ st.pending) (hout : st.outcome id = none) :
    ((channelStep st (.timeoutFire id)).outcome id = some (.error .timedOut))
    ∧ id ∉ (channelStep st (.timeoutFire id)).pending
    ∧ (∀ j, j ≠ id →
        ((j ∈ (channelStep st (.timeoutFire id)).pending ↔ j ∈ st.pending)
         ∧ (channelStep st (.timeoutFire id)).outcome j = st.outcome j)) := by
  have hstep : channelStep st (.timeoutFire id) =
      { st with
          pending := st.pending.erase id,
          outcome := fun j =>
            if j = id then settleOne (st.outcome j) (.error .timedOut) else st.outcome j } := by
    simp only [channelStep]
    rw [if_pos hmem, hout]
  refine ⟨?_, ?_, ?_⟩
  · rw [hstep]
    simp [settleOne, hout]
  · rw [hstep]
    exact hnd.not_mem_erase
  · intro j hj
    rw [hstep]
    exact ⟨List.mem_erase_of_ne hj, by simp [hj]⟩

/-- Claim C3, witness: two concurrently pending requests 5 and 7; the
timeout of 5 rejects only 5, and 7 stays pending and unsettled. -/
theorem timeout_rejects_exactly_target_witness :
    ((channelStep ⟨8, [5, 7], fun _ => none⟩ (.timeoutFire 5)).outcome 5
        = some (.error .timedOut))
    ∧ 5 ∉ (channelStep ⟨8, [5, 7], fun _ => none⟩ (.timeoutFire 5)).pending
    ∧ 7 ∈ (channelStep ⟨8, [5, 7], fun _ => none⟩ (.timeoutFire 5)).pending
    ∧ (channelStep ⟨8, [5, 7], fun _ => none⟩ (.timeoutFire 5)).outcome 7 = none := by
  have h := timeout_rejects_exactly_target ⟨8, [5, 7], fun _ => none⟩ 5
      (by decide) (by decide) rfl
  refine ⟨h.1, h.2.1, ?_, ?_⟩
  · exact ((h.2.2 7 (by decide)).1).mpr (by decide)
  · exact (h.2.2 7 (by decide)).2.trans rfl

/-- Claim C4: a worker error rejects every pending unsettled continuation
with the worker-error condition; continuations that had already settled
keep their outcome; and from then on no event sequence — in particular no
stale response whose id still matches a map entry, since `onerror` leaves
the entries in place — can change a settled outcome or make one of the
rejected continuations resolve successfully. -/
theorem worker_error_rejects_exactly_once (st : MapState) :
    (∀ id ∈ st.pending, st.outcome id = none →
        (channelStep st .workerError).outcome id = some (.error .workerError))
    ∧ (∀ id v, st.outcome id = some v →
        (channelStep st .workerError).outcome id = some v)
    ∧ (∀ (es : List ChannelEvent) (id : Nat) (v : Except ChannelError ClassResult),
        (channelStep st .workerError).outcome id = some v →
        (channelSteps (channelStep st .workerError) es).outcome id = some v)
    ∧ (∀ (es : List ChannelEvent), ∀ id ∈ st.pending, st.outcome id = none →
        ∀ r, (channelSteps (channelStep st .workerError) es).outcome id
          ≠ some (.ok r)) := by
  have hrej : ∀ id ∈ st.pending, st.outcome id = none →
      (channelStep st .workerError).outcome id = some (.error .workerError) := by
    intro id hid hun
    simp only [channelStep]
    simp [hid, settleOne, hun]
  refine ⟨hrej, ?_, ?_, ?_⟩
  · intro id v hv
    exact channelStep_outcome_frozen st .workerError id v hv
  · intro es id v hv
    exact channelSteps_outcome_frozen es _ id v hv
  · intro es id hid hun r
    rw [channelSteps_outcome_frozen es _ id _ (hrej id hid hun)]
    simp

/-- Claim C4, witness: after a worker error, request 0 is rejected, and a
stale matching response afterwards does not resolve it. -/
theorem worker_error_rejects_exactly_once_witness :
    ((channelStep ⟨3, [0, 2], fun _ => none⟩ .workerError).outcome 0
        = some (.error .workerError))
    ∧ (channelSteps (channelStep ⟨3, [0, 2], fun _ => none⟩ .workerError)
        [.response 0 (.ok ⟨"healthy", 99⟩)]).outcome 0 ≠ some (.ok ⟨"healthy", 99⟩) := by
  have h := worker_error_rejects_exactly_once ⟨3, [0, 2], fun _ => none⟩
  exact ⟨h.1 0 (by decide) rfl,
         h.2.2.2 [.response 0 (.ok ⟨"healthy", 99⟩)] 0 (by decide) rfl ⟨"healthy", 99⟩⟩

/-- Claim C8, counterexample: the all-zero pixel satisfies
`green = 2·red = 2·blue`, yet with threshold 1.1 it is background
(`0 > 0 · 1.1` is false), so a buffer of such pixels is not 100%
foreground. -/
theorem segmentation_double_green_counterexample :
    (∀ p ∈ [(⟨0, 0, 0, 255⟩ : Pixel)], p.g = 2 * p.r ∧ p.g = 2 * p.b)
    ∧ foregroundCount (11/10) [(⟨0, 0, 0, 255⟩ : Pixel)]
        ≠ ([(⟨0, 0, 0, 255⟩ : Pixel)]).length := by
  constructor
  · intro p hp
    simp only [List.mem_singleton] at hp
    subst hp
    exact ⟨rfl, rfl⟩
  · simp [foregroundCount, isForeground]

/-- Claim C8, amended: the per-pixel rule is exactly
`g > r·threshold ∧ g > b·threshold`, with foreground pixels kept unchanged
and background pixels replaced by transparent white or flat light gray; at
threshold 1.1, a buffer whose pixels all satisfy `g = 2r = 2b` with
positive red channel is 100% foreground, and a buffer of gray pixels
(`r = g = b`) is 0% foreground. -/
theorem segmentation_rule_and_buffers (threshold : ℚ) (tb : Bool) (p : Pixel)
    (data : List Pixel) :
    (isForeground threshold p = true
        ↔ ((p.r : ℚ) * threshold < (p.g : ℚ) ∧ (p.b : ℚ) * threshold < (p.g : ℚ)))
    ∧ (isForeground threshold p = true → segmentPixel threshold tb p = p)
    ∧ (isForeground threshold p = false →
        segmentPixel threshold tb p = if tb then ⟨255, 255, 255, 0⟩ else ⟨240, 240, 240, p.a⟩)
    ∧ (segmentImage threshold tb data = data.map (segmentPixel threshold tb))
    ∧ ((∀ q ∈ data, q.g = 2 * q.r ∧ q.g = 2 * q.b ∧ 0 < q.r) →
        foregroundCount (11/10) data = data.length)
    ∧ ((∀ q ∈ data, q.r = q.g ∧ q.g = q.b) → foregroundCount (11/10) data = 0) := by
  refine ⟨?_, ?_, ?_, rfl, ?_, ?_⟩
  · simp [isForeground]
  · intro hfg
    simp [segmentPixel, hfg]
  · intro hbg
    simp [segmentPixel, hbg]
  · intro h
    unfold foregroundCount
    rw [List.filter_eq_self.mpr]
    intro q hq
    obtain ⟨h1, h2, h3⟩ := h q hq
    have hr : (0 : ℚ) < (q.r : ℚ) := by exact_mod_cast h3
    simp only [isForeground, Bool.and_eq_true, decide_eq_true_eq]
    constructor
    · have hg : (q.g : ℚ) = 2 * (q.r : ℚ) := by exact_mod_cast h1
      rw [hg]
      nlinarith
    · have hg : (q.g : ℚ) = 2 * (q.b : ℚ) := by exact_mod_cast h2
      have hrb : (q.b : ℚ) = (q.r : ℚ) := by
        have : 2 * q.b = 2 * q.r := h2 ▸ h1
        exact_mod_cast Nat.eq_of_mul_eq_mul_left (by norm_num) this
      rw [hg, hrb]
      nlinarith
  · intro h
    unfold foregroundCount
    rw [List.filter_eq_nil_iff.mpr]
    · rfl
    intro q hq
    obtain ⟨h1, h2⟩ := h q hq
    simp only [isForeground, Bool.and_eq_true, decide_eq_true_eq, not_and]
    intro hcon
    exfalso
    have hg : (q.r : ℚ) = (q.g : ℚ) := by exact_mod_cast h1
    have hgn : (0 : ℚ) ≤ (q.g : ℚ) := Nat.cast_nonneg _
    rw [hg] at hcon
    nlinarith

/-- Claim C8, witness: a one-pixel `g = 2r = 2b`, `r > 0` buffer is fully
foreground and a one-pixel gray buffer is fully background at
threshold 1.1. -/
theorem segmentation_rule_and_buffers_witness :
    foregroundCount (11/10) [(⟨10, 20, 10, 255⟩ : Pixel)]
        = ([(⟨10, 20, 10, 255⟩ : Pixel)]).length
    ∧ foregroundCount (11/10) [(⟨10, 10, 10, 255⟩ : Pixel)] = 0 := by
  constructor
  · exact (segmentation_rule_and_buffers (11/10) false ⟨10, 20, 10, 255⟩
        [⟨10, 20, 10, 255⟩]).2.2.2.2.1 (by decide)
  · exact (segmentation_rule_and_buffers (11/10) false ⟨10, 10, 10, 255⟩
        [⟨10, 10, 10, 255⟩]).2.2.2.2.2 (by decide)

/-- Claim C9: for decoded buffers of sufficient dimensions, the content
check reports too-dark exactly when the mean per-pixel brightness is below
20, too-bright exactly when it is above 235, and valid exactly for means
in between. -/
theorem content_check_brightness_thresholds (width height : Nat) (data : List Pixel)
    (hdim : 50 ≤ min width height) (hlen : data.length = width * height) :
    (checkImageContent width height data = .tooDark ↔ meanBrightness data < 20)
    ∧ (checkImageContent width height data = .tooBright ↔ 235 < meanBrightness data)
    ∧ (checkImageContent width height data = .valid
        ↔ (20 ≤ meanBrightness data ∧ meanBrightness data ≤ 235)) := by
  have hns : ¬(min width height < 50) := by omega
  unfold checkImageContent
  rw [if_neg hns]
  by_cases h1 : meanBrightness data < 20
  · rw [if_pos h1]
    refine ⟨⟨fun _ => h1, fun _ => rfl⟩, ?_, ?_⟩
    · exact ⟨(fun hc => nomatch hc), fun hb => absurd hb (by linarith)⟩
    · exact ⟨(fun hc => nomatch hc), fun hb => absurd h1 (not_lt.mpr hb.1)⟩
  · rw [if_neg h1]
    by_cases h2 : 235 < meanBrightness data
    · rw [if_pos h2]
      refine ⟨?_, ⟨fun _ => h2, fun _ => rfl⟩, ?_⟩
      · exact ⟨(fun hc => nomatch hc), fun hb => absurd hb h1⟩
      · exact ⟨(fun hc => nomatch hc), fun hb => absurd h2 (not_lt.mpr hb.2)⟩
    · rw [if_neg h2]
      refine ⟨?_, ?_, ?_⟩
      · exact ⟨(fun hc => nomatch hc), fun hb => absurd hb h1⟩
      · exact ⟨(fun hc => nomatch hc), fun hb => absurd hb h2⟩
      · exact ⟨fun _ => ⟨not_lt.mp h1, not_lt.mp h2⟩, fun _ => rfl⟩

/-- Claim C9, witness: a near-black 50×50 buffer is rejected as too dark. -/
theorem content_check_brightness_thresholds_witness :
    checkImageContent 50 50 (List.replicate 2500 ⟨0, 0, 0, 255⟩) = .tooDark := by
  have h := content_check_brightness_thresholds 50 50 (List.replicate 2500 ⟨0, 0, 0, 255⟩)
      (by norm_num) (by rw [List.length_replicate])
  apply h.1.mpr
  have hmean : meanBrightness (List.replicate 2500 (⟨0, 0, 0, 255⟩ : Pixel)) = 0 := by
    unfold meanBrightness
    rw [List.map_replicate, List.sum_replicate]
    norm_num [brightness]
  rw [hmean]
  norm_num

end CropDiagnosis
